import Mathlib

/-!
Shallow embedding of `src/firmware/ethereum.c` (TREZOR Ethereum signing):
the RLP length/header encoder, the streaming keccak digest transcript, and
the chunked signing state machine (`ethereum_signing_init`,
`ethereum_signing_txack`, `ethereum_signing_abort`).

Machine integers are modelled as `Nat` with explicit `% 2^32` (resp. `% 256`)
at the points where the C code performs 32-bit wraparound arithmetic
(resp. stores into a `uint8_t`).  The keccak context is modelled by the
transcript of bytes fed to it (`sha3_Update` is list append); the digest and
signature primitives are opaque parameters (`keccak`, `ecdsa_sign`), the
latter returning `none` for a nonzero `ecdsa_sign_digest` return code.
Calls to the UI/transport collaborators (`fsm_sendFailure`, `msg_write`,
`layoutHome`, `layoutProgress`, `layoutEthereumConfirmTx`) are recorded as an
ordered event list; the `protectButton` confirmation result is the `confirm`
parameter of `ethereum_signing_init`.
-/

/-- The modulus 2^32 of the firmware's `uint32_t` arithmetic. -/
def U32 : Nat := 4294967296

/-- The `FailureType` codes this module passes to `fsm_sendFailure`. -/
inductive FailureType where
  | Other
  | ActionCancelled
  | UnexpectedMessage
deriving Repr, DecidableEq

/-- Model of the `EthereumTxRequest` response message (zero-initialized by `memset`). -/
structure EthereumTxRequest where
  has_data_length : Bool := false
  data_length : Nat := 0
  has_signature_v : Bool := false
  signature_v : Nat := 0
  has_signature_r : Bool := false
  signature_r : List Nat := []
  has_signature_s : Bool := false
  signature_s : List Nat := []
deriving Repr, DecidableEq

/-- The `EthereumSignTx` request message: optional byte-string fields plus the
declared total payload length and the initial payload chunk. -/
structure EthereumSignTx where
  has_nonce : Bool := false
  nonce : List Nat := []
  has_gas_price : Bool := false
  gas_price : List Nat := []
  has_gas_limit : Bool := false
  gas_limit : List Nat := []
  has_to : Bool := false
  «to» : List Nat := []
  has_value : Bool := false
  value : List Nat := []
  has_data_length : Bool := false
  data_length : Nat := 0
  has_data_initial_chunk : Bool := false
  data_initial_chunk : List Nat := []
deriving Repr, DecidableEq

/-- The `EthereumTxAck` follow-up message carrying one payload chunk. -/
structure EthereumTxAck where
  has_data_chunk : Bool := false
  data_chunk : List Nat := []
deriving Repr, DecidableEq

/-- One observable side effect (collaborator call) of the signing module. -/
inductive Event where
  | sendFailure : FailureType → String → Event
  | msgWrite : EthereumTxRequest → Event
  | layoutHome : Event
  | layoutProgress : String → Nat → Event
  | layoutConfirmTx : Event
deriving Repr, DecidableEq

/-- The module's static state: `signing`, `data_total`, `data_left`, the staged
`resp`, the `privkey` buffer and the keccak context (as its input transcript). -/
structure SessionState where
  signing : Bool
  data_total : Nat
  data_left : Nat
  resp : EthereumTxRequest
  privkey : List Nat
  keccak_ctx : List Nat
deriving Repr, DecidableEq

/-- The wiped 32-byte private-key buffer (`memset(privkey, 0, 32)`). -/
def zero32 : List Nat := List.replicate 32 0

/-- Model of `hash_rlp_length(length, firstbyte)`: the bytes this call feeds to the
digest.  `% 256` models the `uint8_t` stores of the shifted length. -/
def hash_rlp_length (length firstbyte : Nat) : List Nat :=
  if length = 1 ∧ firstbyte = 0x00 then [0x80]
  else if length = 1 ∧ firstbyte ≤ 0x7f then [firstbyte]
  else if length ≤ 55 then [0x80 + length]
  else if length ≤ 0xff then [0xb7 + 1, length % 256]
  else if length ≤ 0xffff then [0xb7 + 2, length / 256 % 256, length % 256]
  else [0xb7 + 3, length / 65536 % 256, length / 256 % 256, length % 256]

/-- Model of `hash_rlp_list_length(length)`: the list-header bytes fed to the digest. -/
def hash_rlp_list_length (length : Nat) : List Nat :=
  if length ≤ 55 then [0xc0 + length]
  else if length ≤ 0xff then [0xf7 + 1, length % 256]
  else if length ≤ 0xffff then [0xf7 + 2, length / 256 % 256, length % 256]
  else [0xf7 + 3, length / 65536 % 256, length / 256 % 256, length % 256]

/-- Model of `hash_rlp_field(buf, size)`: header then, unless the single-byte encoding
already stands for the field, the body.  `buf.headD 0` is `buf[0]` (protobuf
buffers are zero-initialized, so an empty field reads byte 0). -/
def hash_rlp_field (buf : List Nat) : List Nat :=
  hash_rlp_length buf.length (buf.headD 0) ++
    (if 1 < buf.length ∨ 0x80 ≤ buf.headD 0 then buf else [])

/-- Model of `rlp_calculate_length(length, firstbyte)`: byte count of header plus body
as used by the length-counting pass. -/
def rlp_calculate_length (length firstbyte : Nat) : Nat :=
  if length = 1 ∧ firstbyte ≤ 0x7f then 1
  else if length ≤ 55 then 1 + length
  else if length ≤ 0xff then 2 + length
  else if length ≤ 0xffff then 3 + length
  else 4 + length

/-- Model of `ethereum_signing_abort`: wipe the key and leave signing mode if active. -/
def ethereum_signing_abort (s : SessionState) : SessionState × List Event :=
  if s.signing = true then
    ({ s with privkey := zero32, signing := false }, [Event.layoutHome])
  else
    (s, [])

/-- Model of `send_request_chunk`: stage and send an `EthereumTxRequest` asking for
`min(data_left, 1024)` more bytes.  The progress per-mille mirrors the C
`1000 - 800 * data_left / data_total` in `uint32_t` arithmetic. -/
def send_request_chunk (s : SessionState) : SessionState × List Event :=
  let r := { s.resp with
             has_data_length := true,
             data_length := if s.data_left ≤ 1024 then s.data_left else 1024 }
  ({ s with resp := r },
   [Event.layoutProgress "Signing" ((1000 + U32 - 800 * s.data_left % U32 / s.data_total) % U32),
    Event.msgWrite r])

/-- Model of `send_signature`: finalize the digest, sign it, wipe the key, stage and
send the signature response, then abort back to idle.  A `none` from the
signature primitive is the nonzero `ecdsa_sign_digest` return. -/
def send_signature (ecdsa_sign : List Nat → List Nat → Option (List Nat × Nat))
    (keccak : List Nat → List Nat) (s : SessionState) : SessionState × List Event :=
  match ecdsa_sign s.privkey (keccak s.keccak_ctx) with
  | none =>
      let r := ethereum_signing_abort s
      (r.1, Event.layoutProgress "Signing" 1000 ::
            Event.sendFailure FailureType.Other "Signing failed" :: r.2)
  | some (sig, v) =>
      let s1 := { s with privkey := zero32 }
      let resp1 := { s1.resp with
                     has_data_length := false,
                     has_signature_v := true, signature_v := v + 27,
                     has_signature_r := true, signature_r := List.take 32 sig,
                     has_signature_s := true, signature_s := List.take 32 (List.drop 32 sig) }
      let s2 := { s1 with resp := resp1 }
      let r := ethereum_signing_abort s2
      (r.1, Event.layoutProgress "Signing" 1000 :: Event.msgWrite resp1 :: r.2)

/-- Model of `ethereum_signing_txack`: accept one payload chunk.  The decrement
`data_left -= tx->data_chunk.size` is 32-bit wraparound subtraction. -/
def ethereum_signing_txack (ecdsa_sign : List Nat → List Nat → Option (List Nat × Nat))
    (keccak : List Nat → List Nat) (tx : EthereumTxAck)
    (s : SessionState) : SessionState × List Event :=
  if s.signing = false then
    (s, [Event.sendFailure FailureType.UnexpectedMessage "Not in Signing mode",
         Event.layoutHome])
  else if 0 < s.data_left ∧ (tx.has_data_chunk = false ∨ tx.data_chunk.length = 0) then
    let r := ethereum_signing_abort s
    (r.1, Event.sendFailure FailureType.Other "Empty data chunk received" :: r.2)
  else
    let s1 := { s with
                keccak_ctx := s.keccak_ctx ++ tx.data_chunk,
                data_left := ((s.data_left + U32) - tx.data_chunk.length % U32) % U32 }
    if 0 < s1.data_left then send_request_chunk s1
    else send_signature ecdsa_sign keccak s1

/-- Stage 1 of `ethereum_signing_init`: the total RLP content length of the
six fields (an absent field counts as 1), accumulated in a `uint32_t`. -/
def init_rlp_length (msg : EthereumSignTx) : Nat :=
  ((if msg.has_nonce = true then
      rlp_calculate_length msg.nonce.length (msg.nonce.headD 0) else 1) +
   (if msg.has_gas_price = true then
      rlp_calculate_length msg.gas_price.length (msg.gas_price.headD 0) else 1) +
   (if msg.has_gas_limit = true then
      rlp_calculate_length msg.gas_limit.length (msg.gas_limit.headD 0) else 1) +
   (if msg.has_to = true then
      rlp_calculate_length msg.«to».length (msg.«to».headD 0) else 1) +
   (if msg.has_value = true then
      rlp_calculate_length msg.value.length (msg.value.headD 0) else 1) +
   (if msg.has_data_length = true ∧ msg.has_data_initial_chunk = true then
      rlp_calculate_length msg.data_length (msg.data_initial_chunk.headD 0) else 1)) % U32

/-- Stage 2 of `ethereum_signing_init`: the digest transcript after the list
header and the six fields (absent field: `hash_rlp_length(1, 0)`, i.e. the
empty-string header; the payload field: header for the declared total length
followed by only the initial chunk's bytes). -/
def init_hash_ctx (msg : EthereumSignTx) : List Nat :=
  hash_rlp_list_length (init_rlp_length msg) ++
  (if msg.has_nonce = true then hash_rlp_field msg.nonce
   else hash_rlp_length 1 0) ++
  (if msg.has_gas_price = true then hash_rlp_field msg.gas_price
   else hash_rlp_length 1 0) ++
  (if msg.has_gas_limit = true then hash_rlp_field msg.gas_limit
   else hash_rlp_length 1 0) ++
  (if msg.has_to = true then hash_rlp_field msg.«to»
   else hash_rlp_length 1 0) ++
  (if msg.has_value = true then hash_rlp_field msg.value
   else hash_rlp_length 1 0) ++
  (if msg.has_data_length = true ∧ msg.has_data_initial_chunk = true then
     hash_rlp_length msg.data_length (msg.data_initial_chunk.headD 0) ++
       msg.data_initial_chunk
   else hash_rlp_length 1 0)

/-- Model of `ethereum_signing_init`: validate the descriptor, confirm with the user,
hash list header and the six fields (stages factored out above), load the
key, then either request more payload or sign immediately. -/
def ethereum_signing_init (ecdsa_sign : List Nat → List Nat → Option (List Nat × Nat))
    (keccak : List Nat → List Nat) (msg : EthereumSignTx)
    (node_private_key : List Nat) (confirm : Bool)
    (s0 : SessionState) : SessionState × List Event :=
  -- signing = true; sha3_256_Init; memset(&resp, 0, ...)
  let s := { s0 with signing := true, keccak_ctx := [], resp := {} }
  if msg.has_data_length = true ∧ msg.data_length = 0 then
    let r := ethereum_signing_abort s
    (r.1, Event.sendFailure FailureType.Other "Invalid data length provided" :: r.2)
  else if msg.has_data_length = true ∧
      (msg.has_data_initial_chunk = false ∨ msg.data_initial_chunk.length = 0) then
    let r := ethereum_signing_abort s
    (r.1, Event.sendFailure FailureType.Other "Data length provided, but no initial chunk" :: r.2)
  else if msg.has_data_length = true ∧ msg.data_length < msg.data_initial_chunk.length then
    let r := ethereum_signing_abort s
    (r.1, Event.sendFailure FailureType.Other "Invalid size of initial chunk" :: r.2)
  else
  let s := { s with data_total := if msg.has_data_length = true then msg.data_length else 0 }
  -- layoutEthereumConfirmTx(...); protectButton(...)
  if confirm = false then
    let r := ethereum_signing_abort s
    (r.1, Event.layoutConfirmTx ::
          Event.sendFailure FailureType.ActionCancelled "Signing cancelled by user" :: r.2)
  else
  let s := { s with keccak_ctx := init_hash_ctx msg, privkey := node_private_key }
  if msg.has_data_length = true ∧ msg.data_initial_chunk.length < msg.data_length then
    let s := { s with data_left := msg.data_length - msg.data_initial_chunk.length }
    let r := send_request_chunk s
    (r.1, Event.layoutConfirmTx :: Event.layoutProgress "Signing" 0 ::
          Event.layoutProgress "Signing" 100 :: Event.layoutProgress "Signing" 200 :: r.2)
  else
    let r := send_signature ecdsa_sign keccak s
    (r.1, Event.layoutConfirmTx :: Event.layoutProgress "Signing" 0 ::
          Event.layoutProgress "Signing" 100 :: Event.layoutProgress "Signing" 200 :: r.2)

/-- C4: `rlp_calculate_length` agrees, for every field buffer, with the number
of bytes `hash_rlp_field` feeds to the digest (header plus body), on every
branch including the single-byte special cases. -/
theorem rlp_field_length_agrees (buf : List Nat) :
    (hash_rlp_field buf).length = rlp_calculate_length buf.length (buf.headD 0) := by
  unfold hash_rlp_field hash_rlp_length rlp_calculate_length
  split_ifs <;> simp_all [List.length_append] <;>
    first | omega | (rw [← List.length_eq_zero]; omega)

/-- C5: the emitted encoding of a byte-string field follows the canonical
rules, tier by tier: `[0x00] ↦ [0x80]`; `[b]` with `1 ≤ b ≤ 0x7f ↦ [b]`;
`[b]` with `b ≥ 0x80 ↦ [0x81, b]`; `2 ≤ L ≤ 55 ↦ (0x80+L) :: body`;
`56 ≤ L ≤ 255 ↦ 0xb8 :: L :: body`; `256 ≤ L ≤ 65535 ↦ 0xb9` then `L`
big-endian in two bytes; `65536 ≤ L ≤ 0xFFFFFF ↦ 0xba` then `L` big-endian
in three bytes, each followed by the body. -/
theorem rlp_field_canonical (b : Nat) (buf : List Nat) (hb : b < 256) :
    (hash_rlp_field [0] = [0x80]) ∧
    (1 ≤ b → b ≤ 0x7f → hash_rlp_field [b] = [b]) ∧
    (0x80 ≤ b → hash_rlp_field [b] = [0x81, b]) ∧
    (2 ≤ buf.length → buf.length ≤ 55 →
      hash_rlp_field buf = (0x80 + buf.length) :: buf) ∧
    (56 ≤ buf.length → buf.length ≤ 0xff →
      hash_rlp_field buf = 0xb8 :: buf.length :: buf) ∧
    (256 ≤ buf.length → buf.length ≤ 0xffff →
      hash_rlp_field buf = 0xb9 :: buf.length / 256 :: buf.length % 256 :: buf) ∧
    (65536 ≤ buf.length → buf.length ≤ 0xffffff →
      hash_rlp_field buf =
        0xba :: buf.length / 65536 :: buf.length / 256 % 256 :: buf.length % 256 :: buf) := by
  refine ⟨by decide, ?_, ?_, ?_, ?_, ?_, ?_⟩ <;>
      intros <;> unfold hash_rlp_field hash_rlp_length <;>
      split_ifs <;> simp_all <;> omega

/-- C6 counterexample: the encoder does not reject lengths above 0xFFFFFF.
`hash_rlp_length` emits the same four header bytes `[0xba, 0, 0, 0]` for the
distinct lengths 0x1000000 and 0x2000000 (the high bits of the length are
silently dropped by the `uint8_t` store of `length >> 16`), and
`hash_rlp_list_length` likewise emits `[0xfa, 0, 0, 0]` for both. -/
theorem rlp_length_truncates_above_16mib :
    hash_rlp_length 0x1000000 0xAA = [0xba, 0, 0, 0] ∧
    hash_rlp_length 0x2000000 0xAA = [0xba, 0, 0, 0] ∧
    hash_rlp_list_length 0x1000000 = [0xfa, 0, 0, 0] ∧
    hash_rlp_list_length 0x2000000 = [0xfa, 0, 0, 0] := by
  refine ⟨?_, ?_, ?_, ?_⟩ <;> decide

/-- C6 amended: for a length above 0xFFFFFF (16 MiB − 1) the encoder emits,
with no error or rejection, a `0xba` (resp. `0xfa`) header whose three length
bytes encode only `length % 2^24` — the header is silently truncated. -/
theorem rlp_length_above_16mib (L b : Nat) (h : 0xffffff < L) :
    hash_rlp_length L b =
      [0xba, L % 16777216 / 65536, L % 16777216 / 256 % 256, L % 16777216 % 256] ∧
    hash_rlp_list_length L =
      [0xfa, L % 16777216 / 65536, L % 16777216 / 256 % 256, L % 16777216 % 256] := by
  unfold hash_rlp_length hash_rlp_list_length
  split_ifs <;> simp_all <;> omega

/-- C6 amended, witness at a concrete over-limit length. -/
theorem rlp_length_above_16mib_witness :
    hash_rlp_length 0x1234567 0xAA =
      [0xba, 0x1234567 % 16777216 / 65536, 0x1234567 % 16777216 / 256 % 256,
       0x1234567 % 16777216 % 256] ∧
    hash_rlp_list_length 0x1234567 =
      [0xfa, 0x1234567 % 16777216 / 65536, 0x1234567 % 16777216 / 256 % 256,
       0x1234567 % 16777216 % 256] :=
  rlp_length_above_16mib 0x1234567 0xAA (by decide)

/-- Helper: `ethereum_signing_abort` on an active session wipes the key,
clears `signing` and shows the home screen. -/
theorem abort_of_active (s : SessionState) (h : s.signing = true) :
    ethereum_signing_abort s =
      ({ s with privkey := zero32, signing := false }, [Event.layoutHome]) := by
  simp [ethereum_signing_abort, h]

/-- Helper: `ethereum_signing_abort` on an idle session is a no-op. -/
theorem abort_of_inactive (s : SessionState) (h : s.signing = false) :
    ethereum_signing_abort s = (s, []) := by
  simp [ethereum_signing_abort, h]

/-- Helper: from an active session, `send_signature` always ends with the
session idle and the private-key buffer wiped — on both the success path
(`memset` then abort) and the primitive-failure path (abort). -/
theorem send_signature_terminal (ecdsa_sign : List Nat → List Nat → Option (List Nat × Nat))
    (keccak : List Nat → List Nat) (s : SessionState) (h : s.signing = true) :
    (send_signature ecdsa_sign keccak s).1.signing = false ∧
    (send_signature ecdsa_sign keccak s).1.privkey = zero32 := by
  unfold send_signature
  rcases ecdsa_sign s.privkey (keccak s.keccak_ctx) with _ | ⟨sig, v⟩ <;>
    simp [ethereum_signing_abort, h]

/-- Helper: `send_request_chunk` only touches the staged response. -/
theorem send_request_chunk_frame (s : SessionState) :
    (send_request_chunk s).1.signing = s.signing ∧
    (send_request_chunk s).1.privkey = s.privkey ∧
    (send_request_chunk s).1.data_left = s.data_left ∧
    (send_request_chunk s).1.keccak_ctx = s.keccak_ctx := by
  refine ⟨rfl, rfl, rfl, rfl⟩

/-- C9: `ethereum_signing_txack` while no signing operation is active reports
the `UnexpectedMessage` (protocol error) failure, returns home, and leaves the
session state exactly unchanged. -/
theorem txack_inactive_frame (ecdsa_sign : List Nat → List Nat → Option (List Nat × Nat))
    (keccak : List Nat → List Nat) (tx : EthereumTxAck) (s : SessionState)
    (h : s.signing = false) :
    ethereum_signing_txack ecdsa_sign keccak tx s =
      (s, [Event.sendFailure FailureType.UnexpectedMessage "Not in Signing mode",
           Event.layoutHome]) := by
  simp [ethereum_signing_txack, h]

/-- C9 witness: a concrete idle session and chunk. -/
theorem txack_inactive_frame_witness :
    ethereum_signing_txack (fun _ _ => none) (fun _ => [])
        { has_data_chunk := true, data_chunk := [1, 2, 3] }
        ⟨false, 0, 0, {}, zero32, []⟩ =
      (⟨false, 0, 0, {}, zero32, []⟩,
       [Event.sendFailure FailureType.UnexpectedMessage "Not in Signing mode",
        Event.layoutHome]) :=
  txack_inactive_frame (fun _ _ => none) (fun _ => [])
    { has_data_chunk := true, data_chunk := [1, 2, 3] }
    ⟨false, 0, 0, {}, zero32, []⟩ rfl

/-- C2 (code-bug demonstration): an active session that still expects 1 byte
of payload (`data_left = 1`) is fed a 2-byte chunk.  The `uint32_t` decrement
wraps to 2^32 − 1 instead of aborting: the session stays active, reports no
failure at all, and emits a further chunk request for 1024 bytes — the
overrun is never rejected before the digest would be finalized. -/
theorem txack_overrun_wraps :
    (ethereum_signing_txack (fun _ _ => none) (fun _ => [])
        { has_data_chunk := true, data_chunk := [0xAA, 0xBB] }
        ⟨true, 5, 1, {}, zero32, []⟩).1.data_left = 4294967295 ∧
    (ethereum_signing_txack (fun _ _ => none) (fun _ => [])
        { has_data_chunk := true, data_chunk := [0xAA, 0xBB] }
        ⟨true, 5, 1, {}, zero32, []⟩).1.signing = true ∧
    (ethereum_signing_txack (fun _ _ => none) (fun _ => [])
        { has_data_chunk := true, data_chunk := [0xAA, 0xBB] }
        ⟨true, 5, 1, {}, zero32, []⟩).1.resp.has_data_length = true ∧
    (ethereum_signing_txack (fun _ _ => none) (fun _ => [])
        { has_data_chunk := true, data_chunk := [0xAA, 0xBB] }
        ⟨true, 5, 1, {}, zero32, []⟩).1.resp.data_length = 1024 ∧
    (ethereum_signing_txack (fun _ _ => none) (fun _ => [])
        { has_data_chunk := true, data_chunk := [0xAA, 0xBB] }
        ⟨true, 5, 1, {}, zero32, []⟩).1.resp.has_signature_v = false ∧
    ((ethereum_signing_txack (fun _ _ => none) (fun _ => [])
        { has_data_chunk := true, data_chunk := [0xAA, 0xBB] }
        ⟨true, 5, 1, {}, zero32, []⟩).2.countP fun e => match e with
      | Event.sendFailure _ _ => true
      | _ => false) = 0 ∧
    ((ethereum_signing_txack (fun _ _ => none) (fun _ => [])
        { has_data_chunk := true, data_chunk := [0xAA, 0xBB] }
        ⟨true, 5, 1, {}, zero32, []⟩).2.countP fun e => match e with
      | Event.msgWrite _ => true
      | _ => false) = 1 := by
  decide

/-- C1: whenever the session is inactive after any entry point of the module
returns — `init` with any outcome (success, cancellation, validation error,
signature failure), `txack` with any outcome, or `abort` — the 32-byte
private-key buffer is all zero, provided that held before the call (the key
is wiped on every terminal transition). -/
theorem privkey_zero_when_inactive
    (ecdsa_sign : List Nat → List Nat → Option (List Nat × Nat))
    (keccak : List Nat → List Nat) (msg : EthereumSignTx) (nk : List Nat)
    (confirm : Bool) (tx : EthereumTxAck) (s : SessionState)
    (h : s.signing = false → s.privkey = zero32) :
    ((ethereum_signing_init ecdsa_sign keccak msg nk confirm s).1.signing = false →
      (ethereum_signing_init ecdsa_sign keccak msg nk confirm s).1.privkey = zero32) ∧
    ((ethereum_signing_txack ecdsa_sign keccak tx s).1.signing = false →
      (ethereum_signing_txack ecdsa_sign keccak tx s).1.privkey = zero32) ∧
    ((ethereum_signing_abort s).1.signing = false →
      (ethereum_signing_abort s).1.privkey = zero32) := by
  refine ⟨?_, ?_, ?_⟩
  · unfold ethereum_signing_init
    split_ifs <;>
      first
        | exact fun _ => (send_signature_terminal ecdsa_sign keccak _ rfl).2
        | simp [ethereum_signing_abort, send_request_chunk]
  · unfold ethereum_signing_txack
    split_ifs with h1 h2
    · exact fun _ => h h1
    · simp_all [ethereum_signing_abort]
    · dsimp only
      split_ifs with h3
      · simp_all [send_request_chunk]
      · exact fun _ => (send_signature_terminal ecdsa_sign keccak _ (by simp_all)).2
  · unfold ethereum_signing_abort
    split_ifs <;> simp_all

/-- C1 witness: concrete instantiation at an idle, wiped session. -/
theorem privkey_zero_when_inactive_witness :
    ((ethereum_signing_init (fun _ _ => none) (fun _ => []) {} (List.replicate 32 7) true
        ⟨false, 0, 0, {}, zero32, []⟩).1.signing = false →
      (ethereum_signing_init (fun _ _ => none) (fun _ => []) {} (List.replicate 32 7) true
        ⟨false, 0, 0, {}, zero32, []⟩).1.privkey = zero32) ∧
    ((ethereum_signing_txack (fun _ _ => none) (fun _ => []) {}
        ⟨false, 0, 0, {}, zero32, []⟩).1.signing = false →
      (ethereum_signing_txack (fun _ _ => none) (fun _ => []) {}
        ⟨false, 0, 0, {}, zero32, []⟩).1.privkey = zero32) ∧
    ((ethereum_signing_abort ⟨false, 0, 0, {}, zero32, []⟩).1.signing = false →
      (ethereum_signing_abort ⟨false, 0, 0, {}, zero32, []⟩).1.privkey = zero32) :=
  privkey_zero_when_inactive (fun _ _ => none) (fun _ => []) {} (List.replicate 32 7)
    true {} ⟨false, 0, 0, {}, zero32, []⟩ (fun _ => rfl)

/-- C8: with a declared payload length present, `init` rejects the descriptor
with a reported failure — three distinct error conditions with three distinct
messages — and in each case the emitted events are exactly the failure and the
return home: in particular no confirmation prompt (`layoutConfirmTx`) is ever
shown, and the session ends inactive. -/
theorem init_rejects_invalid_descriptor
    (ecdsa_sign : List Nat → List Nat → Option (List Nat × Nat))
    (keccak : List Nat → List Nat) (msg : EthereumSignTx) (nk : List Nat)
    (confirm : Bool) (s : SessionState) (h : msg.has_data_length = true) :
    (msg.data_length = 0 →
      (ethereum_signing_init ecdsa_sign keccak msg nk confirm s).2 =
        [Event.sendFailure FailureType.Other "Invalid data length provided",
         Event.layoutHome] ∧
      (ethereum_signing_init ecdsa_sign keccak msg nk confirm s).1.signing = false) ∧
    (0 < msg.data_length →
     (msg.has_data_initial_chunk = false ∨ msg.data_initial_chunk.length = 0) →
      (ethereum_signing_init ecdsa_sign keccak msg nk confirm s).2 =
        [Event.sendFailure FailureType.Other "Data length provided, but no initial chunk",
         Event.layoutHome] ∧
      (ethereum_signing_init ecdsa_sign keccak msg nk confirm s).1.signing = false) ∧
    (0 < msg.data_length → msg.has_data_initial_chunk = true →
     0 < msg.data_initial_chunk.length →
     msg.data_length < msg.data_initial_chunk.length →
      (ethereum_signing_init ecdsa_sign keccak msg nk confirm s).2 =
        [Event.sendFailure FailureType.Other "Invalid size of initial chunk",
         Event.layoutHome] ∧
      (ethereum_signing_init ecdsa_sign keccak msg nk confirm s).1.signing = false) := by
  refine ⟨fun h0 => ?_, fun h0 h1 => ?_, fun h0 h1 h2 h3 => ?_⟩
  · simp [ethereum_signing_init, ethereum_signing_abort, h, h0]
  · have hne0 : ¬msg.data_length = 0 := by omega
    rcases h1 with h1 | h1
    · simp [ethereum_signing_init, ethereum_signing_abort, h, h1, hne0]
    · have h1' : msg.data_initial_chunk = [] := List.length_eq_zero.mp h1
      simp [ethereum_signing_init, ethereum_signing_abort, h, h1', hne0]
  · have hne0 : ¬msg.data_length = 0 := by omega
    have h2' : msg.data_initial_chunk ≠ [] := List.length_pos.mp h2
    simp [ethereum_signing_init, ethereum_signing_abort, h, h1, h2', h3, hne0]

/-- C8 witness: scenario C of the spec — declared payload length 5 with an
empty initial chunk is rejected before any confirmation prompt. -/
theorem init_rejects_invalid_descriptor_witness :
    (ethereum_signing_init (fun _ _ => none) (fun _ => [])
        { has_data_length := true, data_length := 5, has_data_initial_chunk := true,
          data_initial_chunk := [] } (List.replicate 32 7) true
        ⟨false, 0, 0, {}, zero32, []⟩).2 =
      [Event.sendFailure FailureType.Other "Data length provided, but no initial chunk",
       Event.layoutHome] ∧
    (ethereum_signing_init (fun _ _ => none) (fun _ => [])
        { has_data_length := true, data_length := 5, has_data_initial_chunk := true,
          data_initial_chunk := [] } (List.replicate 32 7) true
        ⟨false, 0, 0, {}, zero32, []⟩).1.signing = false :=
  (init_rejects_invalid_descriptor (fun _ _ => none) (fun _ => [])
      { has_data_length := true, data_length := 5, has_data_initial_chunk := true,
        data_initial_chunk := [] } (List.replicate 32 7) true
      ⟨false, 0, 0, {}, zero32, []⟩ rfl).2.1 (by decide) (by decide)

/-- Helper: an in-range accepted chunk reduces `ethereum_signing_txack` to the
hash-append, the exact (non-wrapping) decrement, and the follow-up branch. -/
theorem txack_accepted (ecdsa_sign : List Nat → List Nat → Option (List Nat × Nat))
    (keccak : List Nat → List Nat) (tx : EthereumTxAck) (s : SessionState)
    (hs : s.signing = true) (hc : tx.has_data_chunk = true)
    (hne : 0 < tx.data_chunk.length) (hle : tx.data_chunk.length ≤ s.data_left)
    (hlt : s.data_left < U32) :
    ethereum_signing_txack ecdsa_sign keccak tx s =
      (let s1 : SessionState :=
        { s with keccak_ctx := s.keccak_ctx ++ tx.data_chunk,
                 data_left := s.data_left - tx.data_chunk.length }
       if 0 < s1.data_left then send_request_chunk s1
       else send_signature ecdsa_sign keccak s1) := by
  have hmod : ((s.data_left + U32) - tx.data_chunk.length % U32) % U32 =
      s.data_left - tx.data_chunk.length := by
    unfold U32 at hlt ⊢
    omega
  have hnil : tx.data_chunk ≠ [] := List.length_pos.mp hne
  simp [ethereum_signing_txack, hs, hc, hmod, hnil]

/-- C7: for an active session fed an in-range chunk — if payload remains after
the chunk, the session stays active and emits exactly one `EthereumTxRequest`
whose `data_length` is `min(remaining, 1024)`; if the chunk brings the
remainder to exactly 0, the session finalizes, emits exactly one
`EthereumTxRequest` carrying `signature_v = recovery_id + 27` and 32-byte
`signature_r`/`signature_s` with `has_data_length = false` (no further chunk
request), wipes the key and goes idle. -/
theorem txack_chunk_protocol (ecdsa_sign : List Nat → List Nat → Option (List Nat × Nat))
    (keccak : List Nat → List Nat) (tx : EthereumTxAck) (s : SessionState)
    (sig : List Nat) (v : Nat)
    (hs : s.signing = true) (hc : tx.has_data_chunk = true)
    (hne : 0 < tx.data_chunk.length) (hle : tx.data_chunk.length ≤ s.data_left)
    (hlt : s.data_left < U32)
    (hsig : ecdsa_sign s.privkey (keccak (s.keccak_ctx ++ tx.data_chunk)) = some (sig, v))
    (hsl : sig.length = 64) :
    (tx.data_chunk.length < s.data_left →
      (ethereum_signing_txack ecdsa_sign keccak tx s).1.signing = true ∧
      (ethereum_signing_txack ecdsa_sign keccak tx s).1.data_left =
        s.data_left - tx.data_chunk.length ∧
      (ethereum_signing_txack ecdsa_sign keccak tx s).1.resp.has_data_length = true ∧
      (ethereum_signing_txack ecdsa_sign keccak tx s).1.resp.data_length =
        min (s.data_left - tx.data_chunk.length) 1024 ∧
      (ethereum_signing_txack ecdsa_sign keccak tx s).2 =
        [Event.layoutProgress "Signing"
          ((1000 + U32 - 800 * (s.data_left - tx.data_chunk.length) % U32 / s.data_total) % U32),
         Event.msgWrite (ethereum_signing_txack ecdsa_sign keccak tx s).1.resp]) ∧
    (tx.data_chunk.length = s.data_left →
      (ethereum_signing_txack ecdsa_sign keccak tx s).1.signing = false ∧
      (ethereum_signing_txack ecdsa_sign keccak tx s).1.privkey = zero32 ∧
      (ethereum_signing_txack ecdsa_sign keccak tx s).1.resp.has_data_length = false ∧
      (ethereum_signing_txack ecdsa_sign keccak tx s).1.resp.has_signature_v = true ∧
      (ethereum_signing_txack ecdsa_sign keccak tx s).1.resp.signature_v = v + 27 ∧
      (ethereum_signing_txack ecdsa_sign keccak tx s).1.resp.signature_r.length = 32 ∧
      (ethereum_signing_txack ecdsa_sign keccak tx s).1.resp.signature_s.length = 32 ∧
      (ethereum_signing_txack ecdsa_sign keccak tx s).2 =
        [Event.layoutProgress "Signing" 1000,
         Event.msgWrite (ethereum_signing_txack ecdsa_sign keccak tx s).1.resp,
         Event.layoutHome]) := by
  rw [txack_accepted ecdsa_sign keccak tx s hs hc hne hle hlt]
  dsimp only
  constructor
  · intro hgt
    rw [if_pos (by omega)]
    refine ⟨hs, rfl, rfl, ?_, rfl⟩
    simp [send_request_chunk, Nat.min_def]
  · intro heq
    rw [if_neg (by omega)]
    have hz : s.data_left - tx.data_chunk.length = 0 := by omega
    simp only [hz]
    simp [send_signature, ethereum_signing_abort, hs, hsig, hsl]

/-- C7 witness: concrete sessions — 5 bytes left fed a 2-byte chunk yields a
chunk request for min(3, 1024); 2 bytes left fed a 2-byte chunk yields the
signature response with `v + 27` and 32-byte `r`/`s`. -/
theorem txack_chunk_protocol_witness :
    ((ethereum_signing_txack (fun _ _ => some (List.replicate 64 3, 1))
        (fun _ => List.replicate 32 2) { has_data_chunk := true, data_chunk := [1, 2] }
        ⟨true, 7, 5, {}, List.replicate 32 7, [9]⟩).1.signing = true ∧
     (ethereum_signing_txack (fun _ _ => some (List.replicate 64 3, 1))
        (fun _ => List.replicate 32 2) { has_data_chunk := true, data_chunk := [1, 2] }
        ⟨true, 7, 5, {}, List.replicate 32 7, [9]⟩).1.resp.data_length = min 3 1024) ∧
    ((ethereum_signing_txack (fun _ _ => some (List.replicate 64 3, 1))
        (fun _ => List.replicate 32 2) { has_data_chunk := true, data_chunk := [1, 2] }
        ⟨true, 7, 2, {}, List.replicate 32 7, [9]⟩).1.resp.signature_v = 1 + 27 ∧
     (ethereum_signing_txack (fun _ _ => some (List.replicate 64 3, 1))
        (fun _ => List.replicate 32 2) { has_data_chunk := true, data_chunk := [1, 2] }
        ⟨true, 7, 2, {}, List.replicate 32 7, [9]⟩).1.resp.signature_r.length = 32) := by
  constructor
  · have h := (txack_chunk_protocol (fun _ _ => some (List.replicate 64 3, 1))
      (fun _ => List.replicate 32 2) { has_data_chunk := true, data_chunk := [1, 2] }
      ⟨true, 7, 5, {}, List.replicate 32 7, [9]⟩ (List.replicate 64 3) 1
      rfl rfl (by decide) (by decide) (by decide) rfl (by decide)).1 (by decide)
    exact ⟨h.1, h.2.2.2.1⟩
  · have h := (txack_chunk_protocol (fun _ _ => some (List.replicate 64 3, 1))
      (fun _ => List.replicate 32 2) { has_data_chunk := true, data_chunk := [1, 2] }
      ⟨true, 7, 2, {}, List.replicate 32 7, [9]⟩ (List.replicate 64 3) 1
      rfl rfl (by decide) (by decide) (by decide) rfl (by decide)).2 (by decide)
    exact ⟨h.2.2.2.2.1, h.2.2.2.2.2.1⟩

/-- Is this event the `UnexpectedMessage` ("not in signing mode") protocol
failure? -/
def is_protocol_failure : Event → Bool
  | Event.sendFailure FailureType.UnexpectedMessage _ => true
  | _ => false

/-- C3 amended: a second `init` while a signing operation is active is *not*
rejected: `ethereum_signing_init` never emits the protocol-error failure used
for out-of-order chunks, and its emitted events are those of a fresh
operation — identical no matter what session state (active or idle) it starts
from. -/
theorem init_ignores_previous_session
    (ecdsa_sign : List Nat → List Nat → Option (List Nat × Nat))
    (keccak : List Nat → List Nat) (msg : EthereumSignTx) (nk : List Nat)
    (confirm : Bool) (s1 s2 : SessionState) :
    (ethereum_signing_init ecdsa_sign keccak msg nk confirm s1).2 =
      (ethereum_signing_init ecdsa_sign keccak msg nk confirm s2).2 ∧
    ((ethereum_signing_init ecdsa_sign keccak msg nk confirm s1).2.all
       fun e => !(is_protocol_failure e)) = true := by
  unfold ethereum_signing_init
  split_ifs <;>
    (dsimp only
     cases hsig : ecdsa_sign nk (keccak (init_hash_ctx msg)) <;>
       simp [send_signature, send_request_chunk, hsig, ethereum_signing_abort,
             is_protocol_failure])

/-- C3 counterexample: a concrete `init` call on an *active* session (signing
in progress, key loaded, digest partly fed) is not rejected at all — no
failure of any kind is reported, and a complete fresh operation runs through
to an emitted signature, ending idle. -/
theorem init_while_active_not_rejected :
    let r := ethereum_signing_init (fun _ _ => some (List.replicate 64 1, 0))
        (fun _ => List.replicate 32 2) {} (List.replicate 32 7) true
        ⟨true, 9, 9, {}, List.replicate 32 5, [1, 2, 3]⟩
    (r.2.countP fun e => match e with
      | Event.sendFailure _ _ => true
      | _ => false) = 0 ∧
    r.1.signing = false ∧
    r.1.resp.has_signature_v = true := by
  decide

/-- C10: a descriptor carrying an initial payload chunk but no declared
payload length silently ignores the chunk: the call is indistinguishable from
one without the chunk; the payload field enters the digest as the single
empty-string header byte `0x80` (no chunk byte is hashed); and the operation
still completes immediately with a signature over that digest. -/
theorem init_without_length_ignores_chunk
    (ecdsa_sign : List Nat → List Nat → Option (List Nat × Nat))
    (keccak : List Nat → List Nat) (msg : EthereumSignTx) (nk : List Nat)
    (s : SessionState) (sig : List Nat) (v : Nat)
    (h : msg.has_data_length = false)
    (hsig : ecdsa_sign nk (keccak (init_hash_ctx msg)) = some (sig, v)) :
    ethereum_signing_init ecdsa_sign keccak msg nk true s =
      ethereum_signing_init ecdsa_sign keccak
        { msg with has_data_initial_chunk := false, data_initial_chunk := [] } nk true s ∧
    (ethereum_signing_init ecdsa_sign keccak msg nk true s).1.keccak_ctx =
      hash_rlp_list_length (init_rlp_length msg) ++
      (if msg.has_nonce = true then hash_rlp_field msg.nonce else [0x80]) ++
      (if msg.has_gas_price = true then hash_rlp_field msg.gas_price else [0x80]) ++
      (if msg.has_gas_limit = true then hash_rlp_field msg.gas_limit else [0x80]) ++
      (if msg.has_to = true then hash_rlp_field msg.«to» else [0x80]) ++
      (if msg.has_value = true then hash_rlp_field msg.value else [0x80]) ++
      [0x80] ∧
    (ethereum_signing_init ecdsa_sign keccak msg nk true s).1.signing = false ∧
    (ethereum_signing_init ecdsa_sign keccak msg nk true s).1.resp.has_signature_v = true ∧
    (ethereum_signing_init ecdsa_sign keccak msg nk true s).1.resp.signature_v = v + 27 ∧
    (ethereum_signing_init ecdsa_sign keccak msg nk true s).2 =
      [Event.layoutConfirmTx, Event.layoutProgress "Signing" 0,
       Event.layoutProgress "Signing" 100, Event.layoutProgress "Signing" 200,
       Event.layoutProgress "Signing" 1000,
       Event.msgWrite (ethereum_signing_init ecdsa_sign keccak msg nk true s).1.resp,
       Event.layoutHome] := by
  have h80 : hash_rlp_length 1 0 = [0x80] := rfl
  refine ⟨?_, ?_, ?_⟩
  · simp [ethereum_signing_init, init_hash_ctx, init_rlp_length, h]
  · have hctx : (ethereum_signing_init ecdsa_sign keccak msg nk true s).1.keccak_ctx =
        init_hash_ctx msg := by
      simp [ethereum_signing_init, h, send_signature, hsig, ethereum_signing_abort]
    rw [hctx]
    simp [init_hash_ctx, h, h80]
  · simp [ethereum_signing_init, h, send_signature, hsig, ethereum_signing_abort]

/-- C10 witness: a concrete descriptor with a 2-byte initial chunk and no
declared length. -/
theorem init_without_length_ignores_chunk_witness :
    ethereum_signing_init (fun _ _ => some (List.replicate 64 3, 1))
        (fun _ => List.replicate 32 2)
        { has_data_initial_chunk := true, data_initial_chunk := [0xDE, 0xAD] }
        (List.replicate 32 7) true ⟨false, 0, 0, {}, zero32, []⟩ =
      ethereum_signing_init (fun _ _ => some (List.replicate 64 3, 1))
        (fun _ => List.replicate 32 2)
        { has_data_length := false, data_length := 0, has_data_initial_chunk := false,
          data_initial_chunk := [] }
        (List.replicate 32 7) true ⟨false, 0, 0, {}, zero32, []⟩ ∧
    (ethereum_signing_init (fun _ _ => some (List.replicate 64 3, 1))
        (fun _ => List.replicate 32 2)
        { has_data_initial_chunk := true, data_initial_chunk := [0xDE, 0xAD] }
        (List.replicate 32 7) true ⟨false, 0, 0, {}, zero32, []⟩).1.resp.signature_v =
      1 + 27 :=
  ⟨(init_without_length_ignores_chunk (fun _ _ => some (List.replicate 64 3, 1))
      (fun _ => List.replicate 32 2)
      { has_data_initial_chunk := true, data_initial_chunk := [0xDE, 0xAD] }
      (List.replicate 32 7) ⟨false, 0, 0, {}, zero32, []⟩ (List.replicate 64 3) 1
      rfl rfl).1,
   (init_without_length_ignores_chunk (fun _ _ => some (List.replicate 64 3, 1))
      (fun _ => List.replicate 32 2)
      { has_data_initial_chunk := true, data_initial_chunk := [0xDE, 0xAD] }
      (List.replicate 32 7) ⟨false, 0, 0, {}, zero32, []⟩ (List.replicate 64 3) 1
      rfl rfl).2.2.2.2.1⟩

/-- C5 witness: concrete fields in the single-byte and short-string tiers. -/
theorem rlp_field_canonical_witness :
    hash_rlp_field [0] = [0x80] ∧
    hash_rlp_field [0x85] = [0x81, 0x85] ∧
    hash_rlp_field [1, 2, 3] = (0x80 + ([1, 2, 3] : List Nat).length) :: [1, 2, 3] :=
  ⟨(rlp_field_canonical 0x85 [1, 2, 3] (by decide)).1,
   (rlp_field_canonical 0x85 [1, 2, 3] (by decide)).2.2.1 (by decide),
   (rlp_field_canonical 0x85 [1, 2, 3] (by decide)).2.2.2.1 (by decide) (by decide)⟩
